import Mathlib

/-!
Verification of the key-sequence interpreter of `vscode-modal-editor`
(`src/keybindings.ts`).  The TypeScript classes and functions are shallowly
embedded as pure Lean functions: the mutable `KeyEventHandler` becomes an
explicit state record threaded through a `handle` step function, the status
bar text becomes an explicit `statusText` field, and a thrown `KeyError`
becomes an `error` constructor of the result type.
-/

namespace ModalEditor

/-- Modelled from the spec: the `Command` type lives in `src/actions.ts`,
which is not part of the sources; per the spec it is a tagged union of
(1) a bare host-command identifier string, (2) an ordered sequence of such
identifiers, and (3) a structured object `\x7b command, args?, when? \x7d`.
The `args`/`when` payloads are opaque strings here; no claim inspects them.
`isCommand` from `src/actions.guard.ts` corresponds to matching the
`cmd` constructor of `KeymapValue` below. -/
inductive Command where
  | str : String → Command
  | list : List String → Command
  | complex : (command : String) → (args : Option String) → (whenCm : Option String) → Command
deriving DecidableEq, Repr

/-- Embeds the value type of `Keymap = \x7b [key: string]: Keymap | Command \x7d`
from `src/keybindings.ts`: each key maps to a sub-keymap or a command.
A JavaScript object is modelled as an association list with unique keys. -/
inductive KeymapValue where
  | cmd : Command → KeymapValue
  | sub : List (String × KeymapValue) → KeymapValue

/-- Embeds `Keymap` from `src/keybindings.ts`. -/
abbrev Keymap := List (String × KeymapValue)

/-- JavaScript truthiness of a `Command` value: of the three shapes of the
union, only the bare string is falsy, and only when it is empty (arrays and
objects are always truthy). -/
def Command.truthy : Command → Bool
  | .str s => !(s == "")
  | .list _ => true
  | .complex _ _ _ => true

/-- JavaScript truthiness of the result of a keymap lookup
(`Keymap | Command | undefined`): `undefined` is falsy, a sub-keymap object
is truthy, a command is truthy per `Command.truthy`. -/
def truthy : Option KeymapValue → Bool
  | none => false
  | some (.sub _) => true
  | some (.cmd c) => c.truthy

/-- Embeds `getFromKeymap` (src/keybindings.ts lines 25-34): if the keymap
is present and binds the exact key, return that binding; else if it binds
the wildcard key `""`, return that; else `undefined`. -/
def getFromKeymap : Option Keymap → String → Option KeymapValue
  | none, _ => none
  | some keymap, key =>
    match keymap.lookup key with
    | some v => some v
    | none => keymap.lookup ""

/-- Embeds `isNum` (src/keybindings.ts lines 36-39): the key matches
`/^[1-9]$/` when it would be the first count digit, `/^\d$/` otherwise. -/
def isNum (key : String) (isFirst : Bool) : Bool :=
  match key.data with
  | [c] => if isFirst then decide ('1' ≤ c ∧ c ≤ '9') else c.isDigit
  | _ => false

/-- Embeds the immutable constructor arguments of `KeyEventHandler`:
the mode's root keymap, the common root keymap, and the command-mode flag.
The status bar item itself is modelled by the `statusText` field of
`HandlerState`. -/
structure HandlerConfig where
  keymap : Option Keymap
  commonKeymap : Option Keymap
  commandMode : Bool

/-- Embeds the mutable fields of `KeyEventHandler`, plus `statusText`
for the text of the status bar item (`keyStatusBar.text`). -/
structure HandlerState where
  currentKeymap : Option Keymap
  currentCommonKeymap : Option Keymap
  keys : String
  count : String
  parsingCount : Bool
  statusText : String

/-- Embeds `statusBarPrefix` (src/keybindings.ts lines 62-64):
`":"` in command mode, `""` otherwise. -/
def statusBarTag (cfg : HandlerConfig) : String :=
  if cfg.commandMode then ":" else ""

/-- Embeds `updateStatus` (src/keybindings.ts lines 75-77): sets the status
bar text to the mode tag followed by the accumulated count and keys. -/
def updateStatus (cfg : HandlerConfig) (st : HandlerState) : HandlerState :=
  { st with statusText := statusBarTag cfg ++ st.count ++ st.keys }

/-- Embeds `setKeys` (src/keybindings.ts lines 70-73): overwrite the pending
key sequence and refresh the status display. -/
def setKeys (cfg : HandlerConfig) (st : HandlerState) (keys : String) : HandlerState :=
  updateStatus cfg { st with keys := keys }

/-- Embeds `reset` (src/keybindings.ts lines 166-172): return the cursors
to the root keymaps, clear the count, re-enable count parsing, and clear
the visible key sequence (which also refreshes the status display). -/
def reset (cfg : HandlerConfig) (st : HandlerState) : HandlerState :=
  setKeys cfg
    { st with
      currentKeymap := cfg.keymap
      currentCommonKeymap := cfg.commonKeymap
      count := ""
      parsingCount := true }
    ""

/-- The state of a freshly constructed (or just reset) handler: the
constructor of `KeyEventHandler` calls `reset()`. -/
def initState (cfg : HandlerConfig) : HandlerState :=
  { currentKeymap := cfg.keymap
    currentCommonKeymap := cfg.commonKeymap
    keys := ""
    count := ""
    parsingCount := true
    statusText := statusBarTag cfg ++ "" ++ "" }

/-- Outcome of one `handle` call: `pending` embeds the bare `return`
(no action yet), `resolved` embeds `return \x7b command, keys \x7d`, and
`error` embeds `throw new KeyError(msg)`. -/
inductive HandleResult where
  | pending : HandleResult
  | resolved : Command → String → HandleResult
  | error : String → HandleResult
deriving DecidableEq, Repr

/-- Embeds `this.keys.substring(0, this.keys.length-1)`
(src/keybindings.ts line 95): the string without its last character. -/
def dropLastChar (s : String) : String :=
  ⟨s.data.dropLast⟩

/-- Embeds src/keybindings.ts lines 128-136: after descending into a
mode-specific sub-keymap, the common cursor is updated by the same lookup:
a truthy sub-keymap result replaces it, a truthy command result leaves it
unchanged, and a falsy result clears it to `undefined`. -/
def updateCommonOnDescend (ccm : Option Keymap) (key : String) : Option Keymap :=
  match getFromKeymap ccm key with
  | some (.sub m) => some m
  | some (.cmd c) => if c.truthy then ccm else none
  | none => none

/-- Embeds the fallback lookup in `currentCommonKeymap`
(src/keybindings.ts lines 141-163), reached when the `currentKeymap`
lookup produced a falsy value. -/
def handleCommonFallback (cfg : HandlerConfig) (st : HandlerState) (key : String) :
    HandlerState × HandleResult :=
  match getFromKeymap st.currentCommonKeymap key with
  | some (.sub m) =>
    ({ st with currentKeymap := none, currentCommonKeymap := some m }, .pending)
  | some (.cmd c) =>
    if c.truthy then
      (reset cfg st, .resolved c st.keys)
    else
      (reset cfg st, .error ("undefined key sequence: \"" ++ st.keys ++ "\""))
  | none =>
    (reset cfg st, .error ("undefined key sequence: \"" ++ st.keys ++ "\""))

/-- Embeds `handle` (src/keybindings.ts lines 79-164), the one-key step of
the interpreter state machine.  The JavaScript truthiness tests
`if (value)` are rendered with `Command.truthy`; the `isCommand(value)`
probe is the `cmd`/`sub` constructor match. -/
def handle (cfg : HandlerConfig) (st : HandlerState) (key : String) :
    HandlerState × HandleResult :=
  if st.parsingCount && !cfg.commandMode && isNum key (st.count.length == 0) then
    (updateStatus cfg { st with count := st.count ++ key }, .pending)
  else
    let st := setKeys cfg { st with parsingCount := false } (st.keys ++ key)
    if cfg.commandMode then
      if key != "\n" then
        (st, .pending)
      else
        let keys := dropLastChar st.keys
        match cfg.keymap with
        | some keymap =>
          match keymap.lookup keys with
          | some (.cmd c) => (reset cfg st, .resolved c keys)
          | some (.sub _) => (reset cfg st, .error ("undefined command: \"" ++ keys ++ "\""))
          | none => (reset cfg st, .error ("undefined command: \"" ++ keys ++ "\""))
        | none => (reset cfg st, .error ("undefined command: \"" ++ keys ++ "\""))
    else
      match getFromKeymap st.currentKeymap key with
      | some (.cmd c) =>
        if c.truthy then
          (reset cfg st, .resolved c st.keys)
        else
          handleCommonFallback cfg st key
      | some (.sub m) =>
        ({ st with
            currentKeymap := some m
            currentCommonKeymap := updateCommonOnDescend st.currentCommonKeymap key },
          .pending)
      | none =>
        handleCommonFallback cfg st key

/-- Runs a whole key sequence through `handle` from a given state,
collecting the outcome of every call; used to state determinism over
input histories. -/
def runSeq (cfg : HandlerConfig) (st : HandlerState) : List String → List HandleResult
  | [] => []
  | key :: rest =>
    let (st', r) := handle cfg st key
    r :: runSeq cfg st' rest

/-! Concrete keymaps and configurations used in example-based claims. -/

/-- Mode keymap `\x7ba: \x7bb: "cmd1"\x7d\x7d` of the dual-cursor divergence example. -/
def divergeMode : Keymap := [("a", .sub [("b", .cmd (.str "cmd1"))])]

/-- Common keymap `\x7ba: \x7bc: "cmd2"\x7d\x7d` of the dual-cursor divergence example. -/
def divergeCommon : Keymap := [("a", .sub [("c", .cmd (.str "cmd2"))])]

/-- Non-command-mode handler over the divergence example keymaps. -/
def divergeCfg : HandlerConfig :=
  { keymap := some divergeMode, commonKeymap := some divergeCommon, commandMode := false }

/-- Handler whose mode keymap binds `a` to a sub-keymap while the common
keymap binds `a` to a terminal command. -/
def subVsCmdCfg : HandlerConfig :=
  { keymap := some [("a", .sub [("b", .cmd (.str "modeCmd"))])]
    commonKeymap := some [("a", .cmd (.str "commonCmd"))]
    commandMode := false }

/-- Handler whose mode keymap binds `x` to the empty-string command while
the common keymap binds `x` to a non-empty command. -/
def emptyCmdCfg : HandlerConfig :=
  { keymap := some [("x", .cmd (.str ""))]
    commonKeymap := some [("x", .cmd (.str "commonX"))]
    commandMode := false }

/-- Handler with no mode keymap whose common keymap binds `x` to the
empty-string command. -/
def emptyCmdCommonCfg : HandlerConfig :=
  { keymap := none
    commonKeymap := some [("x", .cmd (.str ""))]
    commandMode := false }

/-- Handler with no mode keymap whose common keymap binds `z` to a
non-empty command. -/
def commonOnlyCfg : HandlerConfig :=
  { keymap := none
    commonKeymap := some [("z", .cmd (.str "zCmd"))]
    commandMode := false }

/-- Resetting the handler state yields the same state as a fresh
construction, whatever the state was before. -/
theorem reset_eq_initState (cfg : HandlerConfig) (st : HandlerState) :
    reset cfg st = initState cfg := rfl

/-- C4: `getFromKeymap` returns the exact binding when the key is present,
falls back to the wildcard binding `""` when it is not, returns `undefined`
when the keymap is absent, and exact bindings take precedence over the
wildcard (illustrated on a keymap holding both `"a"` and `""`). -/
theorem getFromKeymap_spec :
    (∀ (m : Keymap) (key : String) (v : KeymapValue),
        m.lookup key = some v → getFromKeymap (some m) key = some v) ∧
    (∀ (m : Keymap) (key : String),
        m.lookup key = none → getFromKeymap (some m) key = m.lookup "") ∧
    (∀ key : String, getFromKeymap none key = none) ∧
    getFromKeymap (some [("a", .cmd (.str "exact")), ("", .cmd (.str "wild"))]) "a"
      = some (.cmd (.str "exact")) ∧
    getFromKeymap (some [("a", .cmd (.str "exact")), ("", .cmd (.str "wild"))]) "z"
      = some (.cmd (.str "wild")) := by
  refine ⟨?_, ?_, fun _ => rfl, rfl, rfl⟩
  · intro m key v h
    simp [getFromKeymap, h]
  · intro m key h
    simp [getFromKeymap, h]

/-- Witness for `getFromKeymap_spec`: evaluates the exact-match clause on a
concrete one-entry keymap. -/
theorem getFromKeymap_spec_witness :
    ([("a", KeymapValue.cmd (.str "x"))] : Keymap).lookup "a"
        = some (KeymapValue.cmd (.str "x")) ∧
    getFromKeymap (some [("a", KeymapValue.cmd (.str "x"))]) "a"
      = some (KeymapValue.cmd (.str "x")) :=
  ⟨rfl, getFromKeymap_spec.1 [("a", KeymapValue.cmd (.str "x"))] "a"
    (KeymapValue.cmd (.str "x")) rfl⟩

/-- C7: with mode keymap `\x7ba: \x7bb: "cmd1"\x7d\x7d` and common keymap
`\x7ba: \x7bc: "cmd2"\x7d\x7d`, from a fresh non-command-mode state, `a` then `c`
resolves to `cmd2` and `a` then `b` resolves to `cmd1`. -/
theorem dual_cursor_divergence :
    (handle divergeCfg (initState divergeCfg) "a").2 = .pending ∧
    (handle divergeCfg (handle divergeCfg (initState divergeCfg) "a").1 "c").2
      = .resolved (.str "cmd2") "ac" ∧
    (handle divergeCfg (handle divergeCfg (initState divergeCfg) "a").1 "b").2
      = .resolved (.str "cmd1") "ab" :=
  ⟨rfl, rfl, rfl⟩

/-- C10: lookup results are tested for truthiness, so a binding to the
empty-string command behaves as if the key were unbound: a mode-keymap
binding of `x` to `""` falls through to the common keymap (here resolving
to `commonX`), and a common-keymap binding of `x` to `""` produces an
"undefined key sequence" failure. -/
theorem empty_command_is_falsy :
    handle emptyCmdCfg (initState emptyCmdCfg) "x"
      = (initState emptyCmdCfg, .resolved (.str "commonX") "x") ∧
    handle emptyCmdCommonCfg (initState emptyCmdCommonCfg) "x"
      = (initState emptyCmdCommonCfg, .error "undefined key sequence: \"x\"") :=
  ⟨rfl, rfl⟩

/-- C1 counterexample: when the mode-side lookup descends into a sub-keymap
and the same key is bound to a (truthy) terminal command in the common
keymap, the code leaves `currentCommonKeymap` unchanged at its previous
value instead of clearing it to `undefined` as the claim states. -/
theorem descend_keeps_common_on_command :
    (handle subVsCmdCfg (initState subVsCmdCfg) "a").2 = .pending ∧
    (handle subVsCmdCfg (initState subVsCmdCfg) "a").1.currentKeymap
      = some [("b", KeymapValue.cmd (.str "modeCmd"))] ∧
    (handle subVsCmdCfg (initState subVsCmdCfg) "a").1.currentCommonKeymap
      = some [("a", KeymapValue.cmd (.str "commonCmd"))] ∧
    (handle subVsCmdCfg (initState subVsCmdCfg) "a").1.currentCommonKeymap ≠ none := by
  refine ⟨rfl, rfl, rfl, ?_⟩
  intro h
  exact Option.noConfusion
    ((show (handle subVsCmdCfg (initState subVsCmdCfg) "a").1.currentCommonKeymap
        = some [("a", KeymapValue.cmd (.str "commonCmd"))] from rfl) ▸ h)

/-- Every `handle` call either reports a still-pending sequence or leaves
the handler in the freshly-reset state. -/
theorem handle_pending_or_init (cfg : HandlerConfig) (st : HandlerState) (key : String) :
    (handle cfg st key).2 = .pending ∨ (handle cfg st key).1 = initState cfg := by
  unfold handle handleCommonFallback
  dsimp only
  repeat' split
  all_goals first | exact Or.inl rfl | exact Or.inr rfl

/-- C2: whenever `handle` resolves terminally — returning a command or
failing with either error — the state it leaves behind is exactly the
freshly reset one: cursors at the root keymaps, empty `keys` and `count`,
and `parsingCount` re-enabled, for any starting state (hence any input
history); the error paths return the already-reset state. -/
theorem terminal_resolution_resets (cfg : HandlerConfig) (st : HandlerState) (key : String)
    (h : (handle cfg st key).2 ≠ .pending) :
    (handle cfg st key).1 = initState cfg ∧
    (handle cfg st key).1.currentKeymap = cfg.keymap ∧
    (handle cfg st key).1.currentCommonKeymap = cfg.commonKeymap ∧
    (handle cfg st key).1.keys = "" ∧
    (handle cfg st key).1.count = "" ∧
    (handle cfg st key).1.parsingCount = true := by
  have := handle_pending_or_init cfg st key
  rcases this with hp | hr
  · exact absurd hp h
  · exact ⟨hr, by rw [hr]; rfl, by rw [hr]; rfl, by rw [hr]; rfl, by rw [hr]; rfl,
      by rw [hr]; rfl⟩

/-- Witness for `terminal_resolution_resets`: a fresh handler with no
keymaps fails on `x` and is left in the fresh state. -/
theorem terminal_resolution_resets_witness :
    (handle emptyCmdCommonCfg (initState emptyCmdCommonCfg) "y").2 ≠ .pending ∧
    (handle emptyCmdCommonCfg (initState emptyCmdCommonCfg) "y").1
      = initState emptyCmdCommonCfg :=
  ⟨by decide,
   (terminal_resolution_resets emptyCmdCommonCfg (initState emptyCmdCommonCfg) "y"
     (by decide)).1⟩

/-- In non-command mode, once the count-digit branch does not fire and the
mode-side lookup is falsy, `handle` is the common-keymap fallback applied
to the state with the key appended and count parsing ended. -/
theorem handle_fallback_eq (cfg : HandlerConfig) (st : HandlerState) (key : String)
    (hcm : cfg.commandMode = false)
    (hdigit : (st.parsingCount && isNum key (st.count.length == 0)) = false)
    (hmode : truthy (getFromKeymap st.currentKeymap key) = false) :
    handle cfg st key
      = handleCommonFallback cfg
          (setKeys cfg { st with parsingCount := false } (st.keys ++ key)) key := by
  unfold handle
  rw [hcm]
  simp only [Bool.not_false, Bool.and_true, hdigit, Bool.false_eq_true, if_false]
  dsimp only [setKeys, updateStatus]
  rcases hv : getFromKeymap st.currentKeymap key with _ | v
  · rfl
  · rcases v with c | m
    · rw [hv] at hmode
      simp only [truthy] at hmode
      simp [hmode]
    · rw [hv] at hmode
      simp [truthy] at hmode

/-- In non-command mode, once the count-digit branch does not fire and the
mode-side lookup yields a sub-keymap, `handle` descends: it installs the
sub-keymap as `currentKeymap`, updates the common cursor by the same
lookup, and stays pending. -/
theorem handle_descend_eq (cfg : HandlerConfig) (st : HandlerState) (key : String) (m : Keymap)
    (hcm : cfg.commandMode = false)
    (hdigit : (st.parsingCount && isNum key (st.count.length == 0)) = false)
    (hlook : getFromKeymap st.currentKeymap key = some (.sub m)) :
    handle cfg st key
      = ({ setKeys cfg { st with parsingCount := false } (st.keys ++ key) with
            currentKeymap := some m
            currentCommonKeymap := updateCommonOnDescend st.currentCommonKeymap key },
          .pending) := by
  unfold handle
  rw [hcm]
  simp only [Bool.not_false, Bool.and_true, hdigit, Bool.false_eq_true, if_false]
  dsimp only [setKeys, updateStatus]
  rw [hlook]

/-- C1 (amended): in non-command mode, when the count-digit branch does not
fire and the key resolves in `currentKeymap` to a sub-keymap, the handler
descends into it, performs the same lookup in `currentCommonKeymap`, and
returns no action; the common cursor is set to the result if it is a
sub-keymap and cleared to `undefined` if the lookup yields nothing — but if
the result is a truthy terminal command the common cursor is left
unchanged (a falsy command clears it). -/
theorem descend_updates_common_cursor (cfg : HandlerConfig) (st : HandlerState)
    (key : String) (m : Keymap)
    (hcm : cfg.commandMode = false)
    (hdigit : (st.parsingCount && isNum key (st.count.length == 0)) = false)
    (hlook : getFromKeymap st.currentKeymap key = some (.sub m)) :
    (handle cfg st key).2 = .pending ∧
    (handle cfg st key).1.currentKeymap = some m ∧
    (handle cfg st key).1.keys = st.keys ++ key ∧
    (∀ m2, getFromKeymap st.currentCommonKeymap key = some (.sub m2) →
        (handle cfg st key).1.currentCommonKeymap = some m2) ∧
    (∀ c, getFromKeymap st.currentCommonKeymap key = some (.cmd c) →
        (handle cfg st key).1.currentCommonKeymap
          = if c.truthy then st.currentCommonKeymap else none) ∧
    (getFromKeymap st.currentCommonKeymap key = none →
        (handle cfg st key).1.currentCommonKeymap = none) := by
  rw [handle_descend_eq cfg st key m hcm hdigit hlook]
  refine ⟨rfl, rfl, rfl, ?_, ?_, ?_⟩
  · intro m2 h2
    simp [updateCommonOnDescend, h2]
  · intro c h2
    simp [updateCommonOnDescend, h2]
  · intro h2
    simp [updateCommonOnDescend, h2]

/-- Witness for `descend_updates_common_cursor`: pressing `a` on the
sub-keymap-vs-command configuration satisfies the hypotheses and stays
pending. -/
theorem descend_updates_common_cursor_witness :
    subVsCmdCfg.commandMode = false ∧
    ((initState subVsCmdCfg).parsingCount
        && isNum "a" ((initState subVsCmdCfg).count.length == 0)) = false ∧
    getFromKeymap (initState subVsCmdCfg).currentKeymap "a"
      = some (.sub [("b", .cmd (.str "modeCmd"))]) ∧
    (handle subVsCmdCfg (initState subVsCmdCfg) "a").2 = .pending :=
  ⟨rfl, rfl, rfl,
    (descend_updates_common_cursor subVsCmdCfg (initState subVsCmdCfg) "a"
      [("b", .cmd (.str "modeCmd"))] rfl rfl rfl).1⟩

/-- C5 counterexample: with no mode keymap and the common keymap binding
`x` to the terminal command `""`, the common-side lookup yields a terminal
command, yet `handle` raises "undefined key sequence" instead of returning
the resolved command, because the empty string is falsy. -/
theorem common_command_not_resolved :
    getFromKeymap (initState emptyCmdCommonCfg).currentKeymap "x" = none ∧
    getFromKeymap (initState emptyCmdCommonCfg).currentCommonKeymap "x"
      = some (.cmd (.str "")) ∧
    (handle emptyCmdCommonCfg (initState emptyCmdCommonCfg) "x").2
      = .error "undefined key sequence: \"x\"" :=
  ⟨rfl, rfl, rfl⟩

/-- C5 (amended): in non-command mode, when the count-digit branch does
not fire and the mode-side lookup is falsy, the common cursor alone is
retried: a truthy terminal command resolves with the accumulated keys and
a reset state, a sub-keymap descends with `currentKeymap` cleared, and the
call fails with "undefined key sequence" over the accumulated keys exactly
when the common lookup is falsy as well. -/
theorem common_fallback_behavior (cfg : HandlerConfig) (st : HandlerState) (key : String)
    (hcm : cfg.commandMode = false)
    (hdigit : (st.parsingCount && isNum key (st.count.length == 0)) = false)
    (hmode : truthy (getFromKeymap st.currentKeymap key) = false) :
    (∀ c, getFromKeymap st.currentCommonKeymap key = some (.cmd c) → c.truthy = true →
        handle cfg st key = (initState cfg, .resolved c (st.keys ++ key))) ∧
    (∀ m, getFromKeymap st.currentCommonKeymap key = some (.sub m) →
        (handle cfg st key).2 = .pending ∧
        (handle cfg st key).1.currentKeymap = none ∧
        (handle cfg st key).1.currentCommonKeymap = some m) ∧
    ((handle cfg st key).2
        = .error ("undefined key sequence: \"" ++ (st.keys ++ key) ++ "\"")
      ↔ truthy (getFromKeymap st.currentCommonKeymap key) = false) := by
  rw [handle_fallback_eq cfg st key hcm hdigit hmode]
  unfold handleCommonFallback
  dsimp only [setKeys, updateStatus]
  refine ⟨?_, ?_, ?_⟩
  · intro c h2 htr
    rw [h2]
    simp only [htr, if_true]
    rfl
  · intro m h2
    rw [h2]
    exact ⟨rfl, rfl, rfl⟩
  · rcases hv2 : getFromKeymap st.currentCommonKeymap key with _ | v
    · simp [truthy]
    · rcases v with c | m
      · cases hct : c.truthy
        · simp [truthy, hct]
        · simp [truthy, hct]
      · simp [truthy]

/-- Witness for `common_fallback_behavior`: a handler with only a common
keymap resolves `z` through the fallback path. -/
theorem common_fallback_behavior_witness :
    commonOnlyCfg.commandMode = false ∧
    ((initState commonOnlyCfg).parsingCount
        && isNum "z" ((initState commonOnlyCfg).count.length == 0)) = false ∧
    truthy (getFromKeymap (initState commonOnlyCfg).currentKeymap "z") = false ∧
    getFromKeymap (initState commonOnlyCfg).currentCommonKeymap "z"
      = some (.cmd (.str "zCmd")) ∧
    handle commonOnlyCfg (initState commonOnlyCfg) "z"
      = (initState commonOnlyCfg, .resolved (.str "zCmd") "z") :=
  ⟨rfl, rfl, rfl, rfl,
    (common_fallback_behavior commonOnlyCfg (initState commonOnlyCfg) "z" rfl rfl rfl).1
      (.str "zCmd") rfl rfl⟩

/-- Handler binding `j` to a terminal command, for the count-parsing
examples. -/
def countCfg : HandlerConfig :=
  { keymap := some [("j", .cmd (.str "cursorDown"))]
    commonKeymap := none
    commandMode := false }

/-- Handler binding the literal key `0` to a terminal command. -/
def zeroCfg : HandlerConfig :=
  { keymap := some [("0", .cmd (.str "zeroCmd"))]
    commonKeymap := none
    commandMode := false }

/-- C3: with count parsing active in non-command mode, a digit valid at the
current position is appended to `count` and the call stays pending without
touching any other field but the display; any other key ends count parsing
and is processed as an ordinary sequence key in the same call; `"1","2","j"`
resolves on `j` with `count = "12"`, and a leading `"0"` is a literal key. -/
theorem count_prefix_parsing :
    (∀ (cfg : HandlerConfig) (st : HandlerState) (key : String),
        cfg.commandMode = false → st.parsingCount = true →
        isNum key (st.count.length == 0) = true →
        (handle cfg st key).2 = .pending ∧
        (handle cfg st key).1.count = st.count ++ key ∧
        (handle cfg st key).1.keys = st.keys ∧
        (handle cfg st key).1.parsingCount = true ∧
        (handle cfg st key).1.currentKeymap = st.currentKeymap ∧
        (handle cfg st key).1.currentCommonKeymap = st.currentCommonKeymap) ∧
    (∀ (cfg : HandlerConfig) (st : HandlerState) (key : String),
        cfg.commandMode = false → st.parsingCount = true →
        isNum key (st.count.length == 0) = false →
        handle cfg st key = handle cfg { st with parsingCount := false } key) ∧
    (handle countCfg (initState countCfg) "1").2 = .pending ∧
    (handle countCfg (initState countCfg) "1").1.count = "1" ∧
    (handle countCfg (handle countCfg (initState countCfg) "1").1 "2").2 = .pending ∧
    (handle countCfg (handle countCfg (initState countCfg) "1").1 "2").1.count = "12" ∧
    (handle countCfg (handle countCfg (initState countCfg) "1").1 "2").1.keys = "" ∧
    handle countCfg
        (handle countCfg (handle countCfg (initState countCfg) "1").1 "2").1 "j"
      = (initState countCfg, .resolved (.str "cursorDown") "j") ∧
    handle zeroCfg (initState zeroCfg) "0"
      = (initState zeroCfg, .resolved (.str "zeroCmd") "0") := by
  refine ⟨?_, ?_, rfl, rfl, rfl, rfl, rfl, rfl, rfl⟩
  · intro cfg st key hcm hpc hnum
    have hcond : (st.parsingCount && !cfg.commandMode
        && isNum key (st.count.length == 0)) = true := by
      rw [hcm, hpc, hnum]
      rfl
    unfold handle
    rw [hcond]
    exact ⟨rfl, rfl, rfl, hpc, rfl, rfl⟩
  · intro cfg st key hcm hpc hnum
    unfold handle
    simp only [hcm, hpc, hnum, Bool.not_false, Bool.and_true, Bool.true_and,
      Bool.and_false, Bool.false_and, Bool.false_eq_true, if_false]

/-- Witness for `count_prefix_parsing`: the digit `5` is appended to the
count of a fresh handler. -/
theorem count_prefix_parsing_witness :
    countCfg.commandMode = false ∧
    (initState countCfg).parsingCount = true ∧
    isNum "5" ((initState countCfg).count.length == 0) = true ∧
    (handle countCfg (initState countCfg) "5").2 = .pending :=
  ⟨rfl, rfl, rfl,
    (count_prefix_parsing.1 countCfg (initState countCfg) "5" rfl rfl rfl).1⟩

/-- C8: the interpreter is deterministic — two runs of the same key
sequence from a freshly reset handler over the same keymap pair produce
the same sequence of pending/resolved/failed outcomes. -/
theorem handle_deterministic (cfg : HandlerConfig) (keys : List String)
    (out1 out2 : List HandleResult)
    (h1 : out1 = runSeq cfg (initState cfg) keys)
    (h2 : out2 = runSeq cfg (initState cfg) keys) :
    out1 = out2 :=
  h1.trans h2.symm

/-- Witness for `handle_deterministic`: the run of `"12j"` on the counting
handler, compared with itself. -/
theorem handle_deterministic_witness :
    ([.pending, .pending, .resolved (.str "cursorDown") "j"]
        = runSeq countCfg (initState countCfg) ["1", "2", "j"]) ∧
    ([.pending, .pending, .resolved (.str "cursorDown") "j"] : List HandleResult)
      = [.pending, .pending, .resolved (.str "cursorDown") "j"] :=
  ⟨rfl, handle_deterministic countCfg ["1", "2", "j"] _ _ rfl rfl⟩

/-- C9: the display update writes only the status text, setting it to the
mode tag followed by count and keys, and after every `handle` call the
status text equals the tag followed by the new count and keys — so every
call that changes the pending sequence refreshes the display accordingly. -/
theorem status_display_invariant :
    (∀ (cfg : HandlerConfig) (st : HandlerState),
        (updateStatus cfg st).statusText = statusBarTag cfg ++ st.count ++ st.keys ∧
        (updateStatus cfg st).currentKeymap = st.currentKeymap ∧
        (updateStatus cfg st).currentCommonKeymap = st.currentCommonKeymap ∧
        (updateStatus cfg st).keys = st.keys ∧
        (updateStatus cfg st).count = st.count ∧
        (updateStatus cfg st).parsingCount = st.parsingCount) ∧
    (∀ (cfg : HandlerConfig) (st : HandlerState) (key : String),
        (handle cfg st key).1.statusText
          = statusBarTag cfg ++ (handle cfg st key).1.count
              ++ (handle cfg st key).1.keys) := by
  refine ⟨fun cfg st => ⟨rfl, rfl, rfl, rfl, rfl, rfl⟩, ?_⟩
  intro cfg st key
  unfold handle handleCommonFallback
  dsimp only
  repeat' split
  all_goals rfl

/-- Command-mode handler with the line `wq` bound to `saveAndClose`. -/
def cmdModeCfg : HandlerConfig :=
  { keymap := some [("wq", .cmd (.str "saveAndClose"))]
    commonKeymap := none
    commandMode := true }

/-- Dropping the last character undoes appending a newline. -/
theorem dropLastChar_append_newline (s : String) : dropLastChar (s ++ "\n") = s := by
  cases s with
  | mk data =>
    show String.mk ((data ++ ['\n']).dropLast) = String.mk data
    rw [List.dropLast_concat]

/-- C6: in command mode every key is appended to the buffer and the call
stays pending until a newline; on newline the buffer without the newline
is looked up literally in the mode's root keymap — a `Command` binding
resolves with a reset state, and otherwise the state is reset and an
"undefined command" error carrying the buffer is raised; `w q \n` over
`\x7bwq: "saveAndClose"\x7d` resolves while `w x \n` fails. -/
theorem command_mode_line_resolution :
    (∀ (cfg : HandlerConfig) (st : HandlerState) (key : String),
        cfg.commandMode = true → key ≠ "\n" →
        (handle cfg st key).2 = .pending ∧
        (handle cfg st key).1.keys = st.keys ++ key) ∧
    (∀ (cfg : HandlerConfig) (st : HandlerState) (km : Keymap) (c : Command),
        cfg.commandMode = true → cfg.keymap = some km →
        km.lookup st.keys = some (.cmd c) →
        handle cfg st "\n" = (initState cfg, .resolved c st.keys)) ∧
    (∀ (cfg : HandlerConfig) (st : HandlerState),
        cfg.commandMode = true →
        (handle cfg st "\n").1 = initState cfg ∧
        ((handle cfg st "\n").2 = .error ("undefined command: \"" ++ st.keys ++ "\"")
          ↔ ∀ (km : Keymap) (c : Command), cfg.keymap = some km →
              km.lookup st.keys ≠ some (.cmd c))) ∧
    (handle cmdModeCfg (initState cmdModeCfg) "w").2 = .pending ∧
    (handle cmdModeCfg (handle cmdModeCfg (initState cmdModeCfg) "w").1 "q").2
      = .pending ∧
    handle cmdModeCfg
        (handle cmdModeCfg (handle cmdModeCfg (initState cmdModeCfg) "w").1 "q").1 "\n"
      = (initState cmdModeCfg, .resolved (.str "saveAndClose") "wq") ∧
    handle cmdModeCfg
        (handle cmdModeCfg (handle cmdModeCfg (initState cmdModeCfg) "w").1 "x").1 "\n"
      = (initState cmdModeCfg, .error "undefined command: \"wx\"") := by
  refine ⟨?_, ?_, ?_, rfl, rfl, rfl, rfl⟩
  · intro cfg st key hcm hkey
    have hb : (key != "\n") = true := bne_iff_ne.mpr hkey
    unfold handle
    rw [hcm, hb]
    simp only [Bool.not_true, Bool.and_false, Bool.false_and, Bool.false_eq_true, if_false]
    exact ⟨rfl, rfl⟩
  · intro cfg st km c hcm hkm hlook
    unfold handle
    rw [hcm]
    simp only [Bool.not_true, Bool.and_false, Bool.false_and, Bool.false_eq_true, if_false]
    dsimp only [setKeys, updateStatus]
    rw [hkm, dropLastChar_append_newline]
    dsimp only
    rw [hlook]
    rfl
  · intro cfg st hcm
    unfold handle
    rw [hcm]
    simp only [Bool.not_true, Bool.and_false, Bool.false_and, Bool.false_eq_true, if_false]
    dsimp only [setKeys, updateStatus]
    rw [dropLastChar_append_newline]
    rcases hkm : cfg.keymap with _ | km
    · exact ⟨rfl, ⟨fun _ km c h => (nomatch h), fun _ => rfl⟩⟩
    · dsimp only
      rcases hlk : List.lookup st.keys km with _ | v
      · refine ⟨rfl, ⟨fun _ km2 c h2 hc => ?_, fun _ => rfl⟩⟩
        rw [← Option.some_inj.mp h2] at hc
        rw [hlk] at hc
        exact nomatch hc
      · rcases v with c | m
        · refine ⟨rfl, ⟨fun h => ?_, fun hall => ?_⟩⟩
          · exact nomatch h
          · exact absurd hlk (hall km c rfl)
        · refine ⟨rfl, ⟨fun _ km2 c h2 hc => ?_, fun _ => rfl⟩⟩
          rw [← Option.some_inj.mp h2] at hc
          rw [hlk] at hc
          exact nomatch hc

/-- Witness for `command_mode_line_resolution`: a pending command-mode
buffer `wq` resolves through the newline clause. -/
theorem command_mode_line_resolution_witness :
    cmdModeCfg.commandMode = true ∧
    cmdModeCfg.keymap = some [("wq", .cmd (.str "saveAndClose"))] ∧
    ([("wq", KeymapValue.cmd (.str "saveAndClose"))] : Keymap).lookup "wq"
      = some (.cmd (.str "saveAndClose")) ∧
    handle cmdModeCfg
        { currentKeymap := cmdModeCfg.keymap, currentCommonKeymap := none,
          keys := "wq", count := "", parsingCount := false, statusText := ":wq" } "\n"
      = (initState cmdModeCfg, .resolved (.str "saveAndClose") "wq") :=
  ⟨rfl, rfl, rfl,
    command_mode_line_resolution.2.1 cmdModeCfg
      { currentKeymap := cmdModeCfg.keymap, currentCommonKeymap := none,
        keys := "wq", count := "", parsingCount := false, statusText := ":wq" }
      [("wq", KeymapValue.cmd (.str "saveAndClose"))] (.str "saveAndClose")
      rfl rfl rfl⟩

end ModalEditor
